import Mathlib

/-!
Shallow embedding of `pytorch_lightning/callbacks/batch_size_finder.py`
(class `BatchSizeFinder`): the batch-size search (power and binsearch
modes), the batch-size adjustment and clamp, the dump/reset/restore of
trainer parameters, and the `scale_batch_size` controller.

Trial execution (`_try_loop_run`) is an external effect; following the
claims, it is modelled as a deterministic oracle `Nat → TrialResult`
mapping the candidate batch size (the value of the batch-size attribute
at trial time) to its outcome.  Machine integers are modelled as `Nat`
(sizes, limits, counters that only grow) and `Int` (the step and epoch
counters, which the controller decrements).
-/

namespace PLBatchSize

/-- Outcome of one trial execution (`_try_loop_run`) at a given candidate
batch size: the run either completes, raises a RuntimeError recognized by
`is_oom_error` as memory exhaustion, or raises some other RuntimeError. -/
inductive TrialResult where
  | success
  | oomFailure
  | otherError
deriving DecidableEq

/-- Result of a search loop: `ok n` is a normal return of batch size `n`;
`raised n` means a non-OOM RuntimeError propagated while the batch-size
attribute held `n`; `fuelOut` is the artifact marker for exhausted fuel in
the embedding of the unbounded `while True` loop of binsearch mode. -/
inductive SearchResult where
  | ok (size : Nat)
  | raised (size : Nat)
  | fuelOut
deriving DecidableEq

/-- Number of batches a DataLoader over `n` samples with batch size `bs`
yields (`len(dataloader)` with `drop_last=False`): the ceiling of n / bs. -/
def dataloaderLen (n bs : Nat) : Nat := (n + bs - 1) / bs

/-- Embeds `BatchSizeFinder._is_valid_batch_size`: valid when the
dataloader has no known length (`has_len_all_ranks` false, modelled as
`none`) or the candidate is at most `len(dataloader)`. -/
def _is_valid_batch_size (batch_size : Nat) (dlLen : Option Nat) : Bool :=
  match dlLen with
  | none => true
  | some l => batch_size ≤ l

/-- Embeds `BatchSizeFinder._adjust_batch_size`.  `dataset` is the active
dataloader's dataset length when known (`len(dataloader.dataset)`), `none`
for an unbounded/streaming source.  `batch_size` is the current value of
the batch-size attribute (`lightning_getattr`).  The new size is `value`
when given, else `batch_size * factor` (the source multiplies by the float
2.0 or the default 1.0 and truncates with `int`, which on naturals equals
multiplication by 2 or 1).  When the candidate fails the validity check it
is clamped with `min new_size len(dataset)`.  Returns the new size and
whether it differs from the previous one; the attribute is set to the new
size (tracked by the callers of this embedding). -/
def _adjust_batch_size (dataset : Option Nat) (batch_size : Nat)
    (factor : Nat) (value : Option Nat) : Nat × Bool :=
  let new_size := match value with
    | some v => v
    | none => batch_size * factor
  let dlLen := dataset.map (fun n => dataloaderLen n batch_size)
  let new_size := if _is_valid_batch_size new_size dlLen then new_size
    else min new_size (dataset.getD new_size)
  (new_size, new_size != batch_size)

/-- Embeds `BatchSizeFinder._run_power_scaling`.  The first `Nat` argument
is the remaining iteration budget of `for _ in range(self.max_trials)`,
the second the current `new_size` (equal to the batch-size attribute at
loop entry).  On success the size is doubled (and possibly clamped); if it
did not change, the loop breaks.  On a memory-exhaustion failure the size
is re-adjusted with the default factor 1.0 and the loop breaks.  Any other
RuntimeError is re-raised.  The second component counts the trial
executions performed. -/
def _run_power_scaling (trial : Nat → TrialResult) (dataset : Option Nat) :
    Nat → Nat → SearchResult × Nat
  | 0, new_size => (.ok new_size, 0)
  | budget + 1, new_size =>
    match trial new_size with
    | .success =>
      let p := _adjust_batch_size dataset new_size 2 none
      if p.2 then
        let r := _run_power_scaling trial dataset budget p.1
        (r.1, r.2 + 1)
      else (.ok p.1, 1)
    | .oomFailure => (.ok (_adjust_batch_size dataset new_size 1 none).1, 1)
    | .otherError => (.raised new_size, 1)

/-- Embeds `BatchSizeFinder._run_binary_scaling`.  Arguments after
`max_trials`: the fuel for the `while True` loop, then `low`, `high`,
`count`, `new_size` exactly as in the source (`low = 1`, `high = None`,
`count = 0` at the call site).  A successful trial increments `count` and
breaks once `count > max_trials`; while `high` is unset the size doubles,
afterwards the midpoint `(high + low) / 2` is adopted; a break also
happens when the adjusted size did not change.  On memory exhaustion
`high` becomes the failing size, the midpoint is adopted, and the loop
breaks when `high - low ≤ 1` (natural subtraction agrees with the
source's integer subtraction on the only use, the comparison with 1).
Any other RuntimeError is re-raised.  The second component counts trial
executions, the third counts the successful ones. -/
def _run_binary_scaling (trial : Nat → TrialResult) (dataset : Option Nat)
    (max_trials : Nat) :
    Nat → Nat → Option Nat → Nat → Nat → SearchResult × Nat × Nat
  | 0, _, _, _, _ => (.fuelOut, 0, 0)
  | fuel + 1, low, high, count, new_size =>
    match trial new_size with
    | .success =>
      let count := count + 1
      if count > max_trials then (.ok new_size, 1, 1)
      else
        let low := new_size
        match high with
        | some h =>
          if h - low ≤ 1 then (.ok new_size, 1, 1)
          else
            let midval := (h + low) / 2
            let p := _adjust_batch_size dataset new_size 1 (some midval)
            if p.2 then
              let r := _run_binary_scaling trial dataset max_trials fuel low high count p.1
              (r.1, r.2.1 + 1, r.2.2 + 1)
            else (.ok p.1, 1, 1)
        | none =>
          let p := _adjust_batch_size dataset new_size 2 none
          if p.2 then
            let r := _run_binary_scaling trial dataset max_trials fuel low high count p.1
            (r.1, r.2.1 + 1, r.2.2 + 1)
          else (.ok p.1, 1, 1)
    | .oomFailure =>
      let high2 := new_size
      let midval := (high2 + low) / 2
      let p := _adjust_batch_size dataset new_size 1 (some midval)
      if high2 - low ≤ 1 then (.ok p.1, 1, 0)
      else
        let r := _run_binary_scaling trial dataset max_trials fuel low (some high2) count p.1
        (r.1, r.2.1 + 1, r.2.2)
    | .otherError => (.raised new_size, 1, 0)

/-- Trial oracle that fails with memory exhaustion exactly when the
candidate batch size exceeds the hidden threshold `T`. -/
def oomOracle (T : Nat) : Nat → TrialResult :=
  fun bs => if bs ≤ T then .success else .oomFailure

/-- Active trainer function (`trainer.state.fn`), selecting the loop,
iteration-limit field and dataloaders used by the callback. -/
inductive TrainerFn where
  | fitting
  | validating
  | testing
  | predicting
deriving DecidableEq

/-- Logger reference: either a real logger (by identity) or the
`DummyLogger` substituted by `_reset_params`. -/
inductive Logger where
  | dummy
  | real (id : Nat)
deriving DecidableEq

/-- Observable trainer state touched by `BatchSizeFinder`.  Loop progress
state dicts (`loop.state_dict(force_save_progress=True)`) are opaque
blobs, modelled as `Nat`; callbacks are tracked by identity.  `batchSize`
is the batch-size hyperparameter reached through
`lightning_getattr`/`lightning_setattr`; `datasetLen` is the active
dataloader's dataset length when known.  `modelParams` are the trainable
parameters, saved and restored through the checkpoint interface. -/
structure Trainer where
  fastDevRun : Bool
  isGlobalZero : Bool
  batchSize : Nat
  logger : Option Logger
  callbacks : List Nat
  globalStep : Int
  currentEpoch : Int
  maxSteps : Int
  limitValBatches : Nat
  limitTestBatches : Nat
  limitPredictBatches : Nat
  fitLoopState : Nat
  validateLoopState : Nat
  testLoopState : Nat
  predictLoopState : Nat
  validateVerbose : Bool
  testVerbose : Bool
  datasetLen : Option Nat
  modelParams : Nat
deriving DecidableEq

/-- Embeds `_BatchSizeFinderDumpedParams`: the snapshot written by
`_dump_params`.  Keys absent for the active mode are `none` (the source
uses a TypedDict populated per mode). -/
structure DumpedParams where
  logger : Option Logger
  callbacks : List Nat
  global_step : Option Int
  max_steps : Option Int
  limit_val_batches : Option Nat
  limit_eval_batches : Option Nat
  loop_state_dict : Nat
  loop_verbose : Option Bool
deriving DecidableEq

/-- Embeds `BatchSizeFinder._dump_params`: captures logger and callbacks,
then per active mode the iteration limit (for fitting also the global
step and `max_steps`), a deep copy of the active loop's state dict, and
the loop's `verbose` flag where the loop has one (the evaluation loops of
validating and testing). -/
def _dump_params (fn : TrainerFn) (t : Trainer) : DumpedParams :=
  match fn with
  | .fitting =>
    { logger := t.logger, callbacks := t.callbacks
      global_step := some t.globalStep, max_steps := some t.maxSteps
      limit_val_batches := some t.limitValBatches, limit_eval_batches := none
      loop_state_dict := t.fitLoopState, loop_verbose := none }
  | .validating =>
    { logger := t.logger, callbacks := t.callbacks
      global_step := none, max_steps := none
      limit_val_batches := none, limit_eval_batches := some t.limitValBatches
      loop_state_dict := t.validateLoopState, loop_verbose := some t.validateVerbose }
  | .testing =>
    { logger := t.logger, callbacks := t.callbacks
      global_step := none, max_steps := none
      limit_val_batches := none, limit_eval_batches := some t.limitTestBatches
      loop_state_dict := t.testLoopState, loop_verbose := some t.testVerbose }
  | .predicting =>
    { logger := t.logger, callbacks := t.callbacks
      global_step := none, max_steps := none
      limit_val_batches := none, limit_eval_batches := some t.limitPredictBatches
      loop_state_dict := t.predictLoopState, loop_verbose := none }

/-- Embeds `BatchSizeFinder._reset_params`: substitutes a `DummyLogger`
when a logger is set, clears the callbacks, and bounds the active mode's
loop by `steps_per_trial` (for fitting also `fit_loop.max_steps`),
silencing the evaluation loops' verbose flag. -/
def _reset_params (steps_per_trial : Nat) (fn : TrainerFn) (t : Trainer) : Trainer :=
  let t := { t with logger := t.logger.map (fun _ => Logger.dummy), callbacks := [] }
  match fn with
  | .fitting => { t with limitValBatches := steps_per_trial, maxSteps := steps_per_trial }
  | .validating => { t with limitValBatches := steps_per_trial, validateVerbose := false }
  | .testing => { t with limitTestBatches := steps_per_trial, testVerbose := false }
  | .predicting => { t with limitPredictBatches := steps_per_trial }

/-- Embeds `BatchSizeFinder._restore_params`: writes the dumped logger and
callbacks back, then per active mode the iteration limit (for fitting also
the global step and `max_steps`), reloads the dumped loop state dict into
the active loop, and restores the `verbose` flag when it was dumped. -/
def _restore_params (fn : TrainerFn) (d : DumpedParams) (t : Trainer) : Trainer :=
  let t := { t with logger := d.logger, callbacks := d.callbacks }
  match fn with
  | .fitting =>
    { t with globalStep := d.global_step.getD t.globalStep
             maxSteps := d.max_steps.getD t.maxSteps
             limitValBatches := d.limit_val_batches.getD t.limitValBatches
             fitLoopState := d.loop_state_dict }
  | .validating =>
    { t with limitValBatches := d.limit_eval_batches.getD t.limitValBatches
             validateLoopState := d.loop_state_dict
             validateVerbose := d.loop_verbose.getD t.validateVerbose }
  | .testing =>
    { t with limitTestBatches := d.limit_eval_batches.getD t.limitTestBatches
             testLoopState := d.loop_state_dict
             testVerbose := d.loop_verbose.getD t.testVerbose }
  | .predicting =>
    { t with limitPredictBatches := d.limit_eval_batches.getD t.limitPredictBatches
             predictLoopState := d.loop_state_dict }

/-- Persisted temporary checkpoint contents. -/
structure Checkpoint where
  params : Nat
  global_step : Int
  epoch : Int
deriving DecidableEq

/-- Modelled from the spec: the external checkpoint interface
`save(path)` (spec section 6) together with the source comment "global
step and current epoch are incremented before saved in checkpoint" and
spec 4.8 step 9 ("the just-incremented progress counters that checkpoint
restoration bumps"): saving persists the trainable parameters and the
step/epoch counters incremented by one. -/
def save_checkpoint (t : Trainer) : Checkpoint :=
  { params := t.modelParams, global_step := t.globalStep + 1, epoch := t.currentEpoch + 1 }

/-- Modelled from the spec: the external checkpoint interface
`restore(path)` (spec section 6): restores the persisted trainable
parameters and step/epoch counters. -/
def restore_checkpoint (c : Checkpoint) (t : Trainer) : Trainer :=
  { t with modelParams := c.params, globalStep := c.global_step, currentEpoch := c.epoch }

/-- Search mode of the callback (`"power"` or `"binsearch"`). -/
inductive Mode where
  | power
  | binsearch
deriving DecidableEq

/-- Constructor arguments of `BatchSizeFinder` relevant to the search. -/
structure SearchConfig where
  mode : Mode
  steps_per_trial : Nat
  init_val : Nat
  max_trials : Nat
deriving DecidableEq

/-- Observable outcome of one `scale_batch_size` invocation.  `raised`
records that a non-OOM RuntimeError propagated to the caller; `skipped`
that the call returned early because of `fast_dev_run`; `trials` the
number of trial executions; `ckptSaved`/`ckptDeleted` whether the
temporary checkpoint file was written and whether this invocation removed
it; `newSize` the reported batch size on normal completion; `fuelOut`
marks fuel exhaustion of the embedded binsearch loop (a model artifact,
never reached in the theorems below). -/
structure ScaleResult where
  trainer : Trainer
  raised : Bool
  skipped : Bool
  trials : Nat
  ckptSaved : Bool
  ckptDeleted : Bool
  newSize : Option Nat
  fuelOut : Bool
deriving DecidableEq

/-- Embeds the tail of `BatchSizeFinder.scale_batch_size` after the mode
dispatch (source lines 155-176): on a normal loop return, restore the
checkpoint and delete its file on the coordinating rank only, decrement
`fit_loop.global_step` and `fit_loop.current_epoch` unconditionally,
restore the dumped parameters and report the new size.  A propagated
RuntimeError (and the model-artifact fuel exhaustion) skips all of this. -/
def _finish_scale (fn : TrainerFn) (d : DumpedParams) (ckpt : Checkpoint)
    (t : Trainer) (res : SearchResult) (trials : Nat) : ScaleResult :=
  match res with
  | .raised bs =>
    { trainer := { t with batchSize := bs }, raised := true, skipped := false
      trials := trials, ckptSaved := true, ckptDeleted := false
      newSize := none, fuelOut := false }
  | .fuelOut =>
    { trainer := t, raised := false, skipped := false
      trials := trials, ckptSaved := true, ckptDeleted := false
      newSize := none, fuelOut := true }
  | .ok n =>
    let t := { t with batchSize := n }
    let t := if t.isGlobalZero then restore_checkpoint ckpt t else t
    let t := { t with globalStep := t.globalStep - 1, currentEpoch := t.currentEpoch - 1 }
    let t := _restore_params fn d t
    { trainer := t, raised := false, skipped := false
      trials := trials, ckptSaved := true, ckptDeleted := t.isGlobalZero
      newSize := some n, fuelOut := false }

/-- Embeds `BatchSizeFinder.scale_batch_size` for a trainer whose
batch-size attribute exists (the precondition checks of source lines
108-133 passed): skip when `fast_dev_run` is set; otherwise dump the
parameters, reset them to the trial configuration, save the temporary
checkpoint, seed the attribute with `init_val` through
`_adjust_batch_size`, run the configured search mode, and finish with
checkpoint restoration, counter decrement and parameter restore
(`_finish_scale`).  `fuel` bounds the embedded binsearch loop. -/
def scale_batch_size (cfg : SearchConfig) (fn : TrainerFn)
    (trial : Nat → TrialResult) (fuel : Nat) (t : Trainer) : ScaleResult :=
  if t.fastDevRun then
    { trainer := t, raised := false, skipped := true, trials := 0
      ckptSaved := false, ckptDeleted := false, newSize := none, fuelOut := false }
  else
    let d := _dump_params fn t
    let t := _reset_params cfg.steps_per_trial fn t
    let ckpt := save_checkpoint t
    let new_size := (_adjust_batch_size t.datasetLen t.batchSize 1 (some cfg.init_val)).1
    let t := { t with batchSize := new_size }
    match cfg.mode with
    | .power =>
      let r := _run_power_scaling trial t.datasetLen cfg.max_trials new_size
      _finish_scale fn d ckpt t r.1 r.2
    | .binsearch =>
      let r := _run_binary_scaling trial t.datasetLen cfg.max_trials fuel 1 none 0 new_size
      _finish_scale fn d ckpt t r.1 r.2.1

/-- Concrete trainer used by the closed theorems below (fitting-capable,
coordinating rank, dataset of 100 samples, batch-size attribute 16). -/
def sampleTrainer : Trainer :=
  { fastDevRun := false, isGlobalZero := true, batchSize := 16
    logger := some (Logger.real 7), callbacks := [1, 2, 3]
    globalStep := 10, currentEpoch := 3, maxSteps := 100
    limitValBatches := 5, limitTestBatches := 6, limitPredictBatches := 7
    fitLoopState := 21, validateLoopState := 22, testLoopState := 23
    predictLoopState := 24, validateVerbose := true, testVerbose := true
    datasetLen := some 100, modelParams := 42 }

/-! ## Helper lemmas -/

/-- The number of batches never exceeds the number of samples (for a
positive batch size). -/
theorem dataloaderLen_le (n bs : Nat) (hbs : 1 ≤ bs) : dataloaderLen n bs ≤ n := by
  unfold dataloaderLen
  rw [Nat.div_le_iff_le_mul_add_pred hbs]
  have h2 : n ≤ bs * n := Nat.le_mul_of_pos_left n hbs
  omega

/-- Adjusting with an explicit value and a known dataset length clamps the
value to the dataset length. -/
theorem adjust_some_value (n bs cand f : Nat) (hbs : 1 ≤ bs) :
    (_adjust_batch_size (some n) bs f (some cand)).1 = if n < cand then n else cand := by
  have hdl := dataloaderLen_le n bs hbs
  simp only [_adjust_batch_size, _is_valid_batch_size, Option.map_some', Option.getD_some]
  by_cases hv : cand ≤ dataloaderLen n bs
  · rw [if_pos (by simpa using hv), if_neg (by omega)]
  · rw [if_neg (by simpa using hv), Nat.min_def]
    by_cases hn : n < cand
    · rw [if_pos hn, if_neg (by omega)]
    · rw [if_neg hn, if_pos (by omega)]

/-- `_reset_params` leaves the dataset length, the batch-size attribute,
the step and epoch counters and the coordinating-rank flag unchanged. -/
theorem reset_params_frame (s : Nat) (fn : TrainerFn) (t : Trainer) :
    (_reset_params s fn t).datasetLen = t.datasetLen
    ∧ (_reset_params s fn t).batchSize = t.batchSize
    ∧ (_reset_params s fn t).globalStep = t.globalStep
    ∧ (_reset_params s fn t).currentEpoch = t.currentEpoch
    ∧ (_reset_params s fn t).isGlobalZero = t.isGlobalZero
    ∧ (_reset_params s fn t).logger = t.logger.map (fun _ => Logger.dummy)
    ∧ (_reset_params s fn t).callbacks = [] := by
  cases fn <;> exact ⟨rfl, rfl, rfl, rfl, rfl, rfl, rfl⟩

/-! ## Theorems for the claims -/

/-- Claim C5: the batch-size clamp.  With a known dataset length a
candidate above the dataset size is replaced by the dataset size and any
other candidate is returned unchanged; with an unknown (streaming) length
every candidate is accepted unchanged. -/
theorem claim_C5_clamp (n bs cand f : Nat) (hbs : 1 ≤ bs) :
    (_adjust_batch_size (some n) bs f (some cand)).1 = (if n < cand then n else cand)
    ∧ (_adjust_batch_size none bs f (some cand)).1 = cand :=
  ⟨adjust_some_value n bs cand f hbs, rfl⟩

/-- Witness for C5 at a concrete input: dataset of 100 samples, current
batch size 16, candidates 120 (clamped to 100) and 60 (unchanged), and a
streaming candidate 120 (unchanged). -/
theorem claim_C5_clamp_witness :
    (_adjust_batch_size (some 100) 16 1 (some 120)).1 = 100
    ∧ (_adjust_batch_size (some 100) 16 1 (some 60)).1 = 60
    ∧ (_adjust_batch_size none 16 1 (some 120)).1 = 120 := by
  refine ⟨?_, ?_, (claim_C5_clamp 100 16 120 1 (by decide)).2⟩
  · have h := (claim_C5_clamp 100 16 120 1 (by decide)).1
    simpa using h
  · have h := (claim_C5_clamp 100 16 60 1 (by decide)).1
    simpa using h

/-- Claim C7: snapshot/restore round trip.  For every trainer state and
every active run mode, restoring from the snapshot taken by
`_dump_params` leaves the trainer identical to its state before the
capture: same logger, callbacks, iteration limits, step counters and loop
progress state. -/
theorem claim_C7_dump_restore_roundtrip (fn : TrainerFn) (t : Trainer) :
    _restore_params fn (_dump_params fn t) t = t := by
  cases fn <;> rfl

/-- Claim C8: with `fast_dev_run` enabled, `scale_batch_size` returns with
everything unchanged: the trainer (batch-size attribute, logger,
callbacks, limits, counters) is exactly as before, no trial runs, and no
checkpoint is created. -/
theorem claim_C8_fast_dev_run_skip (cfg : SearchConfig) (fn : TrainerFn)
    (trial : Nat → TrialResult) (fuel : Nat) (t : Trainer) (h : t.fastDevRun = true) :
    scale_batch_size cfg fn trial fuel t
      = { trainer := t, raised := false, skipped := true, trials := 0
          ckptSaved := false, ckptDeleted := false, newSize := none, fuelOut := false } := by
  simp [scale_batch_size, h]

/-- Witness for C8: the skip at a concrete dry-run trainer. -/
theorem claim_C8_fast_dev_run_skip_witness :
    scale_batch_size ⟨Mode.power, 1, 2, 25⟩ TrainerFn.fitting (oomOracle 33) 0
        { sampleTrainer with fastDevRun := true }
      = { trainer := { sampleTrainer with fastDevRun := true }, raised := false
          skipped := true, trials := 0, ckptSaved := false, ckptDeleted := false
          newSize := none, fuelOut := false } :=
  claim_C8_fast_dev_run_skip ⟨Mode.power, 1, 2, 25⟩ TrainerFn.fitting (oomOracle 33) 0
    { sampleTrainer with fastDevRun := true } rfl

/-- Claim C1 fails on the code: with the oracle failing above threshold
33, `initialValue = 2`, `stepsPerTrial = 1`, `maxTrials = 25` and dataset
size 100, power mode does not converge to 32: the OOM branch re-adjusts
with the default factor 1.0, keeping the failing candidate 64 (the last
value set by `_adjust_batch_size`), and the attribute is left at 64. -/
theorem claim_C1_counterexample :
    (scale_batch_size ⟨Mode.power, 1, 2, 25⟩ TrainerFn.fitting (oomOracle 33) 0
        sampleTrainer).newSize = some 64
    ∧ (scale_batch_size ⟨Mode.power, 1, 2, 25⟩ TrainerFn.fitting (oomOracle 33) 0
        sampleTrainer).trainer.batchSize = 64
    ∧ (scale_batch_size ⟨Mode.power, 1, 2, 25⟩ TrainerFn.fitting (oomOracle 33) 0
        sampleTrainer).newSize ≠ some 32 := by
  refine ⟨rfl, rfl, by decide⟩

/-- Claim C1 as amended: power mode terminates with the last value set by
`_adjust_batch_size` — after a memory-exhaustion failure that is the
failing candidate itself, not the last value confirmed not to fail; in the
example it converges to 64 and sets the attribute to 64.  When the very
first trial fails, the search does return `initialValue` (the only value
set, re-adjusted with factor 1.0). -/
theorem claim_C1_amended :
    ((scale_batch_size ⟨Mode.power, 1, 2, 25⟩ TrainerFn.fitting (oomOracle 33) 0
        sampleTrainer).newSize = some 64
      ∧ (scale_batch_size ⟨Mode.power, 1, 2, 25⟩ TrainerFn.fitting (oomOracle 33) 0
          sampleTrainer).trainer.batchSize = 64)
    ∧ ∀ (trial : Nat → TrialResult) (dataset : Option Nat) (budget bs : Nat),
        trial bs = TrialResult.oomFailure →
        (∀ n, dataset = some n → bs ≤ n) →
        _run_power_scaling trial dataset (budget + 1) bs = (SearchResult.ok bs, 1) := by
  refine ⟨⟨rfl, rfl⟩, ?_⟩
  intro trial dataset budget bs htrial hbound
  simp only [_run_power_scaling, htrial]
  cases dataset with
  | none => simp [_adjust_batch_size, _is_valid_batch_size]
  | some n =>
    have hbs : bs ≤ n := hbound n rfl
    simp only [_adjust_batch_size, _is_valid_batch_size, Option.map_some', Option.getD_some,
      Nat.mul_one]
    by_cases hv : bs ≤ dataloaderLen n bs
    · simp [hv]
    · simp [hv, Nat.min_def, hbs]

/-- Witness for the amended C1: a first-trial failure at batch size 2
with no dataset bound returns 2 after one trial. -/
theorem claim_C1_amended_witness :
    _run_power_scaling (fun _ => TrialResult.oomFailure) none 1 2 = (SearchResult.ok 2, 1) :=
  claim_C1_amended.2 (fun _ => TrialResult.oomFailure) none 0 2 rfl (fun n h => by cases h)

/-- Claim C10: binsearch initializes `low = 1`, so a memory-exhaustion
failure at the very first trial sets `high = initialValue` and the search
continues in `[1, initialValue]`.  With an oracle failing everywhere and
`initialValue = 10`, four trials run (10, 5, 3, 2 — all failing) and the
search returns 1, a value below `initialValue` confirmed by zero
successful trials; with a threshold of 5 and `initialValue = 8` it keeps
searching below the initial value and returns 5. -/
theorem claim_C10_low_initialized_to_one :
    (_run_binary_scaling (oomOracle 0) none 25 25 1 none 0 10 = (SearchResult.ok 1, 4, 0)
      ∧ (1 : Nat) < 10)
    ∧ _run_binary_scaling (oomOracle 5) none 25 25 1 none 0 8 = (SearchResult.ok 5, 4, 2) := by
  exact ⟨⟨by decide, by decide⟩, by decide⟩

/-- Claim C3 fails on the code: in binsearch mode the trial counter is
incremented only after a successful trial and checked only there, so with
`maxTrials = 1` and an oracle that always succeeds, two trial executions
are performed. -/
theorem claim_C3_counterexample :
    (_run_binary_scaling (oomOracle 100) none 1 10 1 none 0 2).2.1 = 2
    ∧ ¬((_run_binary_scaling (oomOracle 100) none 1 10 1 none 0 2).2.1 ≤ 1) := by
  exact ⟨rfl, by decide⟩

/-- In power mode the trial count is bounded by the loop budget. -/
theorem power_trials_le (trial : Nat → TrialResult) (dataset : Option Nat) :
    ∀ (budget ns : Nat), (_run_power_scaling trial dataset budget ns).2 ≤ budget := by
  intro budget
  induction budget with
  | zero => intro ns; simp [_run_power_scaling]
  | succ b ih =>
    intro ns
    simp only [_run_power_scaling]
    cases htr : trial ns with
    | success =>
      simp only [htr]
      split
      · have := ih (_adjust_batch_size dataset ns 2 none).1
        dsimp only
        omega
      · simp
    | oomFailure => simp [htr]
    | otherError => simp [htr]

/-- In binsearch mode the count of successful trials, added to the
running counter, is bounded by `max_trials + 1`. -/
theorem bin_succ_le (trial : Nat → TrialResult) (dataset : Option Nat) (maxT : Nat) :
    ∀ (fuel low : Nat) (high : Option Nat) (count ns : Nat), count ≤ maxT →
      count + (_run_binary_scaling trial dataset maxT fuel low high count ns).2.2 ≤ maxT + 1 := by
  intro fuel
  induction fuel with
  | zero => intro low high count ns hc; simp [_run_binary_scaling]; omega
  | succ f ih =>
    intro low high count ns hc
    simp only [_run_binary_scaling]
    cases htr : trial ns with
    | success =>
      simp only [htr]
      by_cases hcnt : count + 1 > maxT
      · rw [if_pos hcnt]
        dsimp only
        omega
      · rw [if_neg hcnt]
        cases high with
        | some h =>
          dsimp only
          by_cases hgap : h - ns ≤ 1
          · rw [if_pos hgap]
            dsimp only
            omega
          · rw [if_neg hgap]
            split
            · have := ih ns (some h) (count + 1)
                (_adjust_batch_size dataset ns 1 (some ((h + ns) / 2))).1 (by omega)
              dsimp only
              omega
            · dsimp only
              omega
        | none =>
          dsimp only
          split
          · have := ih ns none (count + 1) (_adjust_batch_size dataset ns 2 none).1 (by omega)
            dsimp only
            omega
          · dsimp only
            omega
    | oomFailure =>
      simp only [htr]
      by_cases hgap : ns - low ≤ 1
      · rw [if_pos hgap]
        dsimp only
        omega
      · rw [if_neg hgap]
        have := ih low (some ns) count
          (_adjust_batch_size dataset ns 1 (some ((ns + low) / 2))).1 hc
        dsimp only
        omega
    | otherError =>
      simp only [htr]
      show count + 0 ≤ maxT + 1
      omega

/-- Claim C3 as amended: in power mode the number of trial executions
never exceeds `maxTrials`; in binsearch mode only successful trials are
counted against the budget, and their number is bounded by
`maxTrials + 1`, while memory-exhausted trials are not counted (the total
can exceed `maxTrials`, as the counterexample shows). -/
theorem claim_C3_amended :
    (∀ (trial : Nat → TrialResult) (dataset : Option Nat) (maxT ns : Nat),
      (_run_power_scaling trial dataset maxT ns).2 ≤ maxT)
    ∧ ∀ (trial : Nat → TrialResult) (dataset : Option Nat) (maxT fuel low : Nat)
        (high : Option Nat) (ns : Nat),
        (_run_binary_scaling trial dataset maxT fuel low high 0 ns).2.2 ≤ maxT + 1 := by
  constructor
  · intro trial dataset maxT ns
    exact power_trials_le trial dataset maxT ns
  · intro trial dataset maxT fuel low high ns
    have := bin_succ_le trial dataset maxT fuel low high 0 ns (Nat.zero_le maxT)
    omega

/-- Claim C6: a trial raising a RuntimeError not recognized as memory
exhaustion makes both search modes re-raise immediately: one trial
execution, no successful-trial count, no batch-size adjustment (the
result carries the unchanged candidate), no `Failed` outcome. -/
theorem claim_C6_nonmemory_reraised (trial : Nat → TrialResult) (dataset : Option Nat)
    (maxT budget fuel low : Nat) (high : Option Nat) (count ns : Nat)
    (htrial : trial ns = TrialResult.otherError) :
    _run_power_scaling trial dataset (budget + 1) ns = (SearchResult.raised ns, 1)
    ∧ _run_binary_scaling trial dataset maxT (fuel + 1) low high count ns
        = (SearchResult.raised ns, 1, 0) := by
  constructor
  · simp [_run_power_scaling, htrial]
  · simp [_run_binary_scaling, htrial]

/-- Witness for C6: an always-failing-unrelated trial at candidate 2. -/
theorem claim_C6_nonmemory_reraised_witness :
    _run_power_scaling (fun _ => TrialResult.otherError) (some 100) 25 2
        = (SearchResult.raised 2, 1)
    ∧ _run_binary_scaling (fun _ => TrialResult.otherError) (some 100) 25 50 1 none 0 2
        = (SearchResult.raised 2, 1, 0) :=
  claim_C6_nonmemory_reraised (fun _ => TrialResult.otherError) (some 100) 25 24 49 1 none 0 2 rfl

/-- `_finish_scale` on a propagated error leaves the trainer in the trial
configuration with only the batch-size attribute updated, and performs no
checkpoint deletion. -/
theorem finish_scale_raised (fn : TrainerFn) (d : DumpedParams) (ckpt : Checkpoint)
    (t : Trainer) (bs trials : Nat) :
    _finish_scale fn d ckpt t (SearchResult.raised bs) trials
      = { trainer := { t with batchSize := bs }, raised := true, skipped := false
          trials := trials, ckptSaved := true, ckptDeleted := false
          newSize := none, fuelOut := false } := rfl

/-- `_restore_params` never writes the epoch counter, writes the step
counter only in fitting mode, and in fitting mode writes the dumped one. -/
theorem restore_params_counters (fn : TrainerFn) (d : DumpedParams) (s : Trainer) :
    (_restore_params fn d s).currentEpoch = s.currentEpoch
    ∧ (fn ≠ TrainerFn.fitting → (_restore_params fn d s).globalStep = s.globalStep)
    ∧ (_restore_params TrainerFn.fitting d s).globalStep = d.global_step.getD s.globalStep := by
  refine ⟨?_, ?_, rfl⟩
  · cases fn <;> rfl
  · intro hfn
    cases fn with
    | fitting => exact absurd rfl hfn
    | validating => rfl
    | testing => rfl
    | predicting => rfl

/-- Counter bookkeeping of `_finish_scale` on a normal return: the final
epoch is the checkpointed one on the coordinating rank (the untouched one
elsewhere) minus one; likewise the final step counter, except that in
fitting mode `_restore_params` overwrites it with the dumped value. -/
theorem finish_scale_counters (fn : TrainerFn) (d : DumpedParams) (ckpt : Checkpoint)
    (t : Trainer) (res : SearchResult) (trials n : Nat)
    (h : (_finish_scale fn d ckpt t res trials).newSize = some n) :
    (_finish_scale fn d ckpt t res trials).trainer.currentEpoch
        = (if t.isGlobalZero then ckpt.epoch else t.currentEpoch) - 1
    ∧ (fn ≠ TrainerFn.fitting →
        (_finish_scale fn d ckpt t res trials).trainer.globalStep
          = (if t.isGlobalZero then ckpt.global_step else t.globalStep) - 1)
    ∧ (fn = TrainerFn.fitting →
        (_finish_scale fn d ckpt t res trials).trainer.globalStep
          = d.global_step.getD
              ((if t.isGlobalZero then ckpt.global_step else t.globalStep) - 1)) := by
  cases res with
  | raised bs => simp [_finish_scale] at h
  | fuelOut => simp [_finish_scale] at h
  | ok m =>
    have htr : (_finish_scale fn d ckpt t (SearchResult.ok m) trials).trainer
        = _restore_params fn d
            { (if t.isGlobalZero then restore_checkpoint ckpt { t with batchSize := m }
                else { t with batchSize := m }) with
              globalStep :=
                (if t.isGlobalZero then restore_checkpoint ckpt { t with batchSize := m }
                  else { t with batchSize := m }).globalStep - 1
              currentEpoch :=
                (if t.isGlobalZero then restore_checkpoint ckpt { t with batchSize := m }
                  else { t with batchSize := m }).currentEpoch - 1 } := rfl
    rw [htr]
    refine ⟨?_, fun hfn => ?_, fun hfn => ?_⟩
    · rw [(restore_params_counters fn d _).1]
      cases hz : t.isGlobalZero <;> simp [hz, restore_checkpoint]
    · rw [(restore_params_counters fn d _).2.1 hfn]
      cases hz : t.isGlobalZero <;> simp [hz, restore_checkpoint]
    · subst hfn
      rw [(restore_params_counters TrainerFn.fitting d _).2.2]
      cases hz : t.isGlobalZero <;> simp [hz, restore_checkpoint]

/-- Claim C4 fails on the code: `scale_batch_size` has no try/finally
around the search loops, so a propagated non-OOM RuntimeError skips the
restoration steps entirely.  At a concrete input the call raises while
callbacks stay cleared (the trainer's original callbacks were nonempty)
and the temporary checkpoint is never deleted. -/
theorem claim_C4_counterexample :
    (scale_batch_size ⟨Mode.power, 1, 2, 25⟩ TrainerFn.fitting
        (fun _ => TrialResult.otherError) 0 sampleTrainer).raised = true
    ∧ (scale_batch_size ⟨Mode.power, 1, 2, 25⟩ TrainerFn.fitting
        (fun _ => TrialResult.otherError) 0 sampleTrainer).trainer.callbacks = []
    ∧ sampleTrainer.callbacks ≠ []
    ∧ (scale_batch_size ⟨Mode.power, 1, 2, 25⟩ TrainerFn.fitting
        (fun _ => TrialResult.otherError) 0 sampleTrainer).ckptSaved = true
    ∧ (scale_batch_size ⟨Mode.power, 1, 2, 25⟩ TrainerFn.fitting
        (fun _ => TrialResult.otherError) 0 sampleTrainer).ckptDeleted = false := by
  exact ⟨rfl, rfl, by decide, rfl, rfl⟩

/-- Claim C4 as amended: when a trial raises a runtime error that is not
memory exhaustion, the error propagates to the caller, but there is no
guaranteed-cleanup pattern: controller steps 8-11 are skipped — the
trainer is left in the quiet/bounded trial configuration (dummy logger,
cleared callbacks) and the temporary checkpoint file is not deleted. -/
theorem claim_C4_amended (cfg : SearchConfig) (fn : TrainerFn)
    (trial : Nat → TrialResult) (fuel : Nat) (t : Trainer)
    (hfdr : t.fastDevRun = false) (hmax : 0 < cfg.max_trials)
    (htrial : trial ((_adjust_batch_size t.datasetLen t.batchSize 1 (some cfg.init_val)).1)
        = TrialResult.otherError) :
    (scale_batch_size cfg fn trial (fuel + 1) t).raised = true
    ∧ (scale_batch_size cfg fn trial (fuel + 1) t).trainer.callbacks = []
    ∧ (scale_batch_size cfg fn trial (fuel + 1) t).trainer.logger
        = t.logger.map (fun _ => Logger.dummy)
    ∧ (scale_batch_size cfg fn trial (fuel + 1) t).ckptSaved = true
    ∧ (scale_batch_size cfg fn trial (fuel + 1) t).ckptDeleted = false := by
  obtain ⟨mode, steps, init, maxT⟩ := cfg
  have hfr := reset_params_frame steps fn t
  have hseed : (_adjust_batch_size (_reset_params steps fn t).datasetLen
      (_reset_params steps fn t).batchSize 1 (some init)).1
      = (_adjust_batch_size t.datasetLen t.batchSize 1 (some init)).1 := by
    rw [hfr.1, hfr.2.1]
  cases mode with
  | power =>
    cases maxT with
    | zero => simp at hmax
    | succ k =>
      have hscale : scale_batch_size ⟨Mode.power, steps, init, k + 1⟩ fn trial (fuel + 1) t
          = _finish_scale fn (_dump_params fn t) (save_checkpoint (_reset_params steps fn t))
              { _reset_params steps fn t with
                  batchSize := (_adjust_batch_size t.datasetLen t.batchSize 1 (some init)).1 }
              (SearchResult.raised
                ((_adjust_batch_size t.datasetLen t.batchSize 1 (some init)).1)) 1 := by
        simp only [scale_batch_size, hfdr, Bool.false_eq_true, if_false]
        rw [hseed]
        simp only [_run_power_scaling, htrial]
      rw [hscale, finish_scale_raised]
      refine ⟨rfl, ?_, ?_, rfl, rfl⟩
      · exact hfr.2.2.2.2.2.2
      · exact hfr.2.2.2.2.2.1
  | binsearch =>
    have hscale : scale_batch_size ⟨Mode.binsearch, steps, init, maxT⟩ fn trial (fuel + 1) t
        = _finish_scale fn (_dump_params fn t) (save_checkpoint (_reset_params steps fn t))
            { _reset_params steps fn t with
                batchSize := (_adjust_batch_size t.datasetLen t.batchSize 1 (some init)).1 }
            (SearchResult.raised
              ((_adjust_batch_size t.datasetLen t.batchSize 1 (some init)).1)) 1 := by
      simp only [scale_batch_size, hfdr, Bool.false_eq_true, if_false]
      rw [hseed]
      simp only [_run_binary_scaling, htrial]
    rw [hscale, finish_scale_raised]
    refine ⟨rfl, ?_, ?_, rfl, rfl⟩
    · exact hfr.2.2.2.2.2.2
    · exact hfr.2.2.2.2.2.1

/-- Witness for the amended C4 at a concrete input. -/
theorem claim_C4_amended_witness :
    (scale_batch_size ⟨Mode.power, 1, 2, 25⟩ TrainerFn.fitting
        (fun _ => TrialResult.otherError) 1 sampleTrainer).raised = true
    ∧ (scale_batch_size ⟨Mode.power, 1, 2, 25⟩ TrainerFn.fitting
        (fun _ => TrialResult.otherError) 1 sampleTrainer).trainer.callbacks = []
    ∧ (scale_batch_size ⟨Mode.power, 1, 2, 25⟩ TrainerFn.fitting
        (fun _ => TrialResult.otherError) 1 sampleTrainer).trainer.logger
        = sampleTrainer.logger.map (fun _ => Logger.dummy)
    ∧ (scale_batch_size ⟨Mode.power, 1, 2, 25⟩ TrainerFn.fitting
        (fun _ => TrialResult.otherError) 1 sampleTrainer).ckptSaved = true
    ∧ (scale_batch_size ⟨Mode.power, 1, 2, 25⟩ TrainerFn.fitting
        (fun _ => TrialResult.otherError) 1 sampleTrainer).ckptDeleted = false :=
  claim_C4_amended ⟨Mode.power, 1, 2, 25⟩ TrainerFn.fitting
    (fun _ => TrialResult.otherError) 0 sampleTrainer rfl (by decide) rfl

/-- Claim C9: whenever `scale_batch_size` completes a search (reports a
new size), the controller has decremented the fit-loop step and epoch
counters by one unconditionally, in every run mode and on every rank: the
final epoch is the checkpoint-restored value (original plus one on the
coordinating rank, the untouched original elsewhere) minus one, and
likewise the step counter in the validating/testing/predicting modes,
where `_restore_params` does not write it back; in fitting mode the
restore overwrites the step counter with the dumped original. -/
theorem claim_C9_unconditional_decrement (cfg : SearchConfig) (fn : TrainerFn)
    (trial : Nat → TrialResult) (fuel : Nat) (t : Trainer) (n : Nat)
    (hok : (scale_batch_size cfg fn trial fuel t).newSize = some n) :
    (scale_batch_size cfg fn trial fuel t).trainer.currentEpoch
        = (if t.isGlobalZero then t.currentEpoch + 1 else t.currentEpoch) - 1
    ∧ (fn ≠ TrainerFn.fitting →
        (scale_batch_size cfg fn trial fuel t).trainer.globalStep
          = (if t.isGlobalZero then t.globalStep + 1 else t.globalStep) - 1)
    ∧ (fn = TrainerFn.fitting →
        (scale_batch_size cfg fn trial fuel t).trainer.globalStep = t.globalStep) := by
  obtain ⟨mode, steps, init, maxT⟩ := cfg
  by_cases hfdr : t.fastDevRun = true
  · simp [scale_batch_size, hfdr] at hok
  · have hf : t.fastDevRun = false := by revert hfdr; cases t.fastDevRun <;> simp
    have hfr := reset_params_frame steps fn t
    have hz : ({ _reset_params steps fn t with
        batchSize := (_adjust_batch_size (_reset_params steps fn t).datasetLen
          (_reset_params steps fn t).batchSize 1 (some init)).1 } : Trainer).isGlobalZero
        = t.isGlobalZero := hfr.2.2.2.2.1
    have hep : ({ _reset_params steps fn t with
        batchSize := (_adjust_batch_size (_reset_params steps fn t).datasetLen
          (_reset_params steps fn t).batchSize 1 (some init)).1 } : Trainer).currentEpoch
        = t.currentEpoch := hfr.2.2.2.1
    have hgs : ({ _reset_params steps fn t with
        batchSize := (_adjust_batch_size (_reset_params steps fn t).datasetLen
          (_reset_params steps fn t).batchSize 1 (some init)).1 } : Trainer).globalStep
        = t.globalStep := hfr.2.2.1
    have hce : (save_checkpoint (_reset_params steps fn t)).epoch = t.currentEpoch + 1 := by
      show (_reset_params steps fn t).currentEpoch + 1 = t.currentEpoch + 1
      rw [hfr.2.2.2.1]
    have hcg : (save_checkpoint (_reset_params steps fn t)).global_step
        = t.globalStep + 1 := by
      show (_reset_params steps fn t).globalStep + 1 = t.globalStep + 1
      rw [hfr.2.2.1]
    have hdg : fn = TrainerFn.fitting →
        (_dump_params fn t).global_step = some t.globalStep := by
      intro hfn; subst hfn; rfl
    cases mode with
    | power =>
      have hscale : scale_batch_size ⟨Mode.power, steps, init, maxT⟩ fn trial fuel t
          = _finish_scale fn (_dump_params fn t) (save_checkpoint (_reset_params steps fn t))
              { _reset_params steps fn t with
                  batchSize := (_adjust_batch_size (_reset_params steps fn t).datasetLen
                    (_reset_params steps fn t).batchSize 1 (some init)).1 }
              (_run_power_scaling trial (_reset_params steps fn t).datasetLen maxT
                (_adjust_batch_size (_reset_params steps fn t).datasetLen
                  (_reset_params steps fn t).batchSize 1 (some init)).1).1
              (_run_power_scaling trial (_reset_params steps fn t).datasetLen maxT
                (_adjust_batch_size (_reset_params steps fn t).datasetLen
                  (_reset_params steps fn t).batchSize 1 (some init)).1).2 := by
        simp only [scale_batch_size, hf, Bool.false_eq_true, if_false]
      rw [hscale] at hok ⊢
      have key := finish_scale_counters fn _ _ _ _ _ n hok
      rw [hz, hep, hgs, hce, hcg] at key
      refine ⟨key.1, key.2.1, ?_⟩
      intro hfn
      rw [key.2.2 hfn, hdg hfn]
      rfl
    | binsearch =>
      have hscale : scale_batch_size ⟨Mode.binsearch, steps, init, maxT⟩ fn trial fuel t
          = _finish_scale fn (_dump_params fn t) (save_checkpoint (_reset_params steps fn t))
              { _reset_params steps fn t with
                  batchSize := (_adjust_batch_size (_reset_params steps fn t).datasetLen
                    (_reset_params steps fn t).batchSize 1 (some init)).1 }
              (_run_binary_scaling trial (_reset_params steps fn t).datasetLen maxT fuel 1 none 0
                (_adjust_batch_size (_reset_params steps fn t).datasetLen
                  (_reset_params steps fn t).batchSize 1 (some init)).1).1
              (_run_binary_scaling trial (_reset_params steps fn t).datasetLen maxT fuel 1 none 0
                (_adjust_batch_size (_reset_params steps fn t).datasetLen
                  (_reset_params steps fn t).batchSize 1 (some init)).1).2.1 := by
        simp only [scale_batch_size, hf, Bool.false_eq_true, if_false]
      rw [hscale] at hok ⊢
      have key := finish_scale_counters fn _ _ _ _ _ n hok
      rw [hz, hep, hgs, hce, hcg] at key
      refine ⟨key.1, key.2.1, ?_⟩
      intro hfn
      rw [key.2.2 hfn, hdg hfn]
      rfl

/-- Witness for the concrete power-mode run of C9: the coordinating-rank
fitting search that converges to 64. -/
theorem claim_C9_unconditional_decrement_witness :
    (scale_batch_size ⟨Mode.power, 1, 2, 25⟩ TrainerFn.fitting (oomOracle 33) 0
        sampleTrainer).trainer.currentEpoch
      = (if sampleTrainer.isGlobalZero then sampleTrainer.currentEpoch + 1
          else sampleTrainer.currentEpoch) - 1
    ∧ (TrainerFn.fitting ≠ TrainerFn.fitting →
        (scale_batch_size ⟨Mode.power, 1, 2, 25⟩ TrainerFn.fitting (oomOracle 33) 0
            sampleTrainer).trainer.globalStep
          = (if sampleTrainer.isGlobalZero then sampleTrainer.globalStep + 1
              else sampleTrainer.globalStep) - 1)
    ∧ (TrainerFn.fitting = TrainerFn.fitting →
        (scale_batch_size ⟨Mode.power, 1, 2, 25⟩ TrainerFn.fitting (oomOracle 33) 0
            sampleTrainer).trainer.globalStep = sampleTrainer.globalStep) :=
  claim_C9_unconditional_decrement ⟨Mode.power, 1, 2, 25⟩ TrainerFn.fitting (oomOracle 33) 0
    sampleTrainer 64 rfl

/-- Adjusting with an explicit value and no known dataset length keeps
the value. -/
theorem adjust_none_val (bs f v : Nat) :
    _adjust_batch_size none bs f (some v) = (v, v != bs) := rfl

/-- Adjusting by a factor with no known dataset length multiplies. -/
theorem adjust_none_fac (bs f : Nat) :
    _adjust_batch_size none bs f none = (bs * f, bs * f != bs) := rfl

/-- The threshold oracle succeeds at or below the threshold. -/
theorem oomOracle_success {T bs : Nat} (h : bs ≤ T) :
    oomOracle T bs = TrialResult.success := by
  simp only [oomOracle]
  rw [if_pos h]

/-- The threshold oracle fails with memory exhaustion above the
threshold. -/
theorem oomOracle_oom {T bs : Nat} (h : T < bs) :
    oomOracle T bs = TrialResult.oomFailure := by
  simp only [oomOracle]
  rw [if_neg (by omega)]

/-- Binary phase of binsearch under the threshold oracle: from a state
with a confirmed-good `low ≤ T`, a failing `high > T`, the midpoint as
current candidate and enough fuel and budget, the loop returns exactly
the threshold `T`. -/
theorem bin_phase2 (T maxT : Nat) :
    ∀ (fuel low h count : Nat), low ≤ T → T < h → 2 ≤ h - low → h - low ≤ fuel →
      count + fuel ≤ maxT →
      (_run_binary_scaling (oomOracle T) none maxT fuel low (some h) count
          ((h + low) / 2)).1 = SearchResult.ok T := by
  intro fuel
  induction fuel with
  | zero =>
    intro low h count h1 h2 h3 h4 h5
    omega
  | succ f ih =>
    intro low h count h1 h2 h3 h4 h5
    have hmidlow : low + 1 ≤ (h + low) / 2 := by omega
    have hmidhigh : (h + low) / 2 + 1 ≤ h := by omega
    simp only [_run_binary_scaling]
    by_cases hns : (h + low) / 2 ≤ T
    · rw [oomOracle_success hns]
      dsimp only
      rw [if_neg (show ¬count + 1 > maxT by omega)]
      by_cases hgap : h - (h + low) / 2 ≤ 1
      · rw [if_pos hgap]
        have hval : (h + low) / 2 = T := by omega
        rw [hval]
      · rw [if_neg hgap]
        rw [adjust_none_val]
        dsimp only
        rw [if_pos (show ((h + (h + low) / 2) / 2 != (h + low) / 2) = true by
          rw [bne_iff_ne]; omega)]
        dsimp only
        exact ih ((h + low) / 2) h (count + 1) hns h2 (by omega) (by omega) (by omega)
    · rw [oomOracle_oom (by omega)]
      dsimp only
      rw [adjust_none_val]
      by_cases hgap : (h + low) / 2 - low ≤ 1
      · rw [if_pos hgap]
        dsimp only
        have hval : ((h + low) / 2 + low) / 2 = T := by omega
        rw [hval]
      · rw [if_neg hgap]
        dsimp only
        exact ih low ((h + low) / 2) count h1 (by omega) (by omega) (by omega) (by omega)

/-- Doubling phase of binsearch under the threshold oracle: from a
current candidate `bs ≤ T` with `high` unset and enough fuel and budget,
the loop returns exactly the threshold `T`. -/
theorem bin_phase1 (T maxT : Nat) :
    ∀ (fuel bs low count : Nat), 0 < bs → bs ≤ T → 2 * (T + 1) ≤ fuel + bs →
      count + fuel ≤ maxT →
      (_run_binary_scaling (oomOracle T) none maxT fuel low none count bs).1
        = SearchResult.ok T := by
  intro fuel
  induction fuel with
  | zero =>
    intro bs low count h0 h1 h2 h3
    omega
  | succ f ih =>
    intro bs low count h0 h1 h2 h3
    simp only [_run_binary_scaling]
    rw [oomOracle_success h1]
    dsimp only
    rw [if_neg (show ¬count + 1 > maxT by omega)]
    rw [adjust_none_fac]
    dsimp only
    rw [if_pos (show (bs * 2 != bs) = true by rw [bne_iff_ne]; omega)]
    dsimp only
    by_cases hdb : bs * 2 ≤ T
    · exact ih (bs * 2) bs (count + 1) (by omega) hdb (by omega) (by omega)
    · cases f with
      | zero => exact absurd h2 (by omega)
      | succ f2 =>
        simp only [_run_binary_scaling]
        rw [oomOracle_oom (by omega)]
        dsimp only
        rw [adjust_none_val]
        by_cases hgap : bs * 2 - bs ≤ 1
        · rw [if_pos hgap]
          dsimp only
          have hval : (bs * 2 + bs) / 2 = T := by omega
          rw [hval]
        · rw [if_neg hgap]
          dsimp only
          exact bin_phase2 T maxT f2 bs (bs * 2) (count + 1) h1 (by omega) (by omega)
            (by omega) (by omega)

/-- Claim C2: binsearch convergence.  For every threshold oracle with
`initialValue ≤ T` and unlimited trial budget (fuel and `maxTrials` large
enough; the dataset is unbounded, matching a claim that quantifies only
over the oracle), `_run_binary_scaling` terminates — necessarily through
one of its `high - low ≤ 1` exits — and returns exactly `T`, the last
confirmed-good value, which in particular lies in `[T - 1, T]`.
Concretely, the full controller with `initialValue = 2`, threshold 33,
dataset size 100 and `maxTrials = 25` reports 33. -/
theorem claim_C2_binsearch_convergence :
    (∀ (T init fuel maxT : Nat), 0 < init → init ≤ T →
      2 * (T + 1) ≤ fuel + init → fuel ≤ maxT →
      (_run_binary_scaling (oomOracle T) none maxT fuel 1 none 0 init).1
        = SearchResult.ok T)
    ∧ (scale_batch_size ⟨Mode.binsearch, 1, 2, 25⟩ TrainerFn.fitting (oomOracle 33) 50
        sampleTrainer).newSize = some 33 := by
  constructor
  · intro T init fuel maxT h0 h1 h2 h3
    exact bin_phase1 T maxT fuel init 1 0 h0 h1 h2 (by omega)
  · rfl

/-- Witness for C2: threshold 33, initial value 2, fuel and budget 70. -/
theorem claim_C2_binsearch_convergence_witness :
    (_run_binary_scaling (oomOracle 33) none 70 70 1 none 0 2).1 = SearchResult.ok 33 :=
  claim_C2_binsearch_convergence.1 33 2 70 70 (by decide) (by decide) (by decide) (by decide)

end PLBatchSize
